import Mathlib

/-!
Verification of the simtrans core: a shallow embedding of
`src/simtrans/vrml.py` (graph-to-tree converter and tree-format writer)
and `src/simtrans/sdf.py` (graph-format reader), with theorems settling
the frozen claims about the natural-language specification.

Conventions of the embedding:
* Python strings are `String`, Python floats are `ℚ` (the claims never
  depend on binary rounding), Python lists are `List`.
* Python `dict` objects are association lists with insertion-order
  semantics (`dictInsert`, `dictDelete`, `dictGet`).
* Python exceptions are the `PyErr` type; fallible code returns `Except`.
* `model.py` is not part of the sources; its data classes are modelled
  from the spec (section 3) as plain records whose fields default to an
  unset value, and the joint-type enumerants are modelled as their
  lowercase names, consistent with `vrml.py` assigning the literal
  string "fixed" to a joint's `jointType`.
-/

/-- A Python scalar value as stored in a dynamically typed field: either a
string (an XML text node stored verbatim) or a number (the result of
`float(...)`, represented exactly as a rational). -/
inductive PyScalar where
  | str (s : String)
  | num (q : ℚ)
deriving DecidableEq, Repr

/-- Python exceptions raised by the embedded code, plus the typed errors the
spec requires (section 7); the latter are modelled from the spec so that
their absence from the code's behaviour can be stated. -/
inductive PyErr where
  | keyError (k : String)
  | indexError
  | valueError
  | exceptionMsg (m : String)
  | danglingReference (k : String)
  | noRootFound
  | ambiguousRoot
  | notATree
deriving DecidableEq, Repr

/-- Whether an error is the typed `DanglingReference` the spec requires
(section 7); the embedded code never constructs it. -/
def PyErr.isDanglingRef : PyErr → Bool
  | .danglingReference _ => true
  | _ => false

/-- Modelled from the spec: the value of the external
`transformations.quaternion_from_euler` (thirdparty, not under `src/`),
kept symbolically as the Euler angles it is applied to; no claim inspects
the quaternion components (section 4.1 fixes only the convention). -/
structure TFQuaternion where
  roll : ℚ
  pitch : ℚ
  yaw : ℚ
deriving DecidableEq, Repr

/-- Modelled from the spec (section 3): a Link. The claims settled here
consume only the link's name and identity, so only the name is carried. -/
structure LinkModel where
  name : String
deriving DecidableEq, Repr

/-- Modelled from the spec (section 3): a Joint, as populated by
`SDFReader.read` and by the synthetic root joint of `VRMLWriter.write`.
Optional fields default to an unset value (`none`, or `""` for the
parent/child link-name references, which every reader-built joint sets). -/
structure JointModel where
  name : String := ""
  jointType : String := ""
  trans : Option (List ℚ) := none
  rot : Option TFQuaternion := none
  axis : Option (List PyScalar) := none
  damping : Option PyScalar := none
  friction : Option PyScalar := none
  limit : Option (List PyScalar) := none
  parent : String := ""
  child : String := ""
deriving DecidableEq, Repr

/-- Modelled from the spec (section 3): the Model (body) holding links and
joints in document order. -/
structure BodyModel where
  name : String := ""
  links : List LinkModel := []
  joints : List JointModel := []
deriving Repr

/-- A Python value flowing into `VRMLWriter.convertchildren`/`findchildren`
as the `linkname` argument: the top-level call passes a link-name string,
the recursive call in `vrml.py` line 62 passes the `LinkModel` object
itself. -/
inductive PyVal where
  | str (s : String)
  | obj (l : LinkModel)
deriving DecidableEq, Repr

/-- Python equality `j.parent == linkname` between the string `j.parent`
and a `PyVal`: comparing a string with a `LinkModel` instance is `False`
(the modelled data classes define no custom equality). -/
def pyEq (s : String) : PyVal → Bool
  | .str t => s == t
  | .obj _ => false

/-- The nested tree node built by the writer: the dict
`{'joint': ..., 'link': ..., 'children': ...}` of `vrml.py`. -/
inductive TreeNode where
  | node (joint : JointModel) (link : LinkModel) (children : List TreeNode)
deriving Repr

/-- The `joint` entry of a tree node. -/
def TreeNode.jointOf : TreeNode → JointModel
  | .node j _ _ => j

/-- The `link` entry of a tree node. -/
def TreeNode.linkOf : TreeNode → LinkModel
  | .node _ l _ => l

/-- The `children` entry of a tree node. -/
def TreeNode.childrenOf : TreeNode → List TreeNode
  | .node _ _ c => c

/-- A Python `dict` with string keys, as an insertion-ordered association
list. -/
abbrev PyDict (α : Type) := List (String × α)

/-- Python `k in d`. -/
def dictContains (d : PyDict α) (k : String) : Bool :=
  d.any (fun p => p.1 == k)

/-- Python `d[k] = v`: overwrite in place if the key is present, else
append, preserving insertion order. -/
def dictInsert (d : PyDict α) (k : String) (v : α) : PyDict α :=
  if dictContains d k then d.map (fun p => if p.1 == k then (k, v) else p)
  else d ++ [(k, v)]

/-- Python `del d[k]` with a caught `KeyError`: remove the key if present,
otherwise do nothing. -/
def dictDelete (d : PyDict α) (k : String) : PyDict α :=
  d.filter (fun p => !(p.1 == k))

/-- Python `d[k]` as an `Option` (the caller turns `none` into a
`KeyError`). -/
def dictGet (d : PyDict α) (k : String) : Option α :=
  (d.find? (fun p => p.1 == k)).map Prod.snd

/-- The keys of a `PyDict`, in order. -/
def keysOf (d : PyDict α) : List String :=
  d.map Prod.fst

/-! ## `VRMLWriter` (vrml.py 19-97) -/

/-- `VRMLWriter.findroot` (vrml.py 66-87): build a dict keyed by every
joint's `parent`, delete every joint's `child` key (ignoring misses),
return the remaining keys. -/
def findroot (mdata : BodyModel) : List String :=
  let joints := mdata.joints.foldl (fun d j => dictInsert d j.parent 1) ([] : PyDict Nat)
  let joints := mdata.joints.foldl (fun d j => dictDelete d j.child) joints
  keysOf joints

/-- `VRMLWriter.findchildren` (vrml.py 89-97): the joints whose `parent`
equals the given `linkname`, in joint-sequence order. -/
def findchildren (mdata : BodyModel) (linkname : PyVal) : List JointModel :=
  mdata.joints.filter (fun j => pyEq j.parent linkname)

/-- Rank used only to justify termination of the writer's recursion: the
recursive call always passes a `LinkModel` object, for which
`findchildren` is empty. -/
def pyRank : PyVal → Nat
  | .str _ => 1
  | .obj _ => 0

/-- `VRMLWriter.convertchildren` (vrml.py 56-64), uncurried over the list
of child joints it iterates: for each joint found by `findchildren`, look
up the child link in the writer's `_linkmap` (an unchecked `dict` access
raising `KeyError`), recurse — passing the `LinkModel` object `nlink`,
exactly as `vrml.py` line 62 does — and append the node
`{'joint': cjoint, 'link': nlink, 'children': ...}`. -/
def convertJoints (mdata : BodyModel) (lm : PyDict LinkModel) :
    PyVal → List JointModel → Except PyErr (List TreeNode)
  | _, [] => Except.ok []
  | linkname, cjoint :: rest =>
    match dictGet lm cjoint.child with
    | none => Except.error (PyErr.keyError cjoint.child)
    | some nlink =>
      match convertJoints mdata lm (PyVal.obj nlink) (findchildren mdata (PyVal.obj nlink)) with
      | Except.error e => Except.error e
      | Except.ok childNodes =>
        match convertJoints mdata lm linkname rest with
        | Except.error e => Except.error e
        | Except.ok restNodes =>
          Except.ok (TreeNode.node cjoint nlink childNodes :: restNodes)
termination_by ln js => (pyRank ln, js.length)
decreasing_by
  · have hfc : findchildren mdata (PyVal.obj nlink) = [] := by simp [findchildren, pyEq]
    rw [hfc]
    cases linkname with
    | str s => exact Prod.Lex.left _ _ (by simp [pyRank])
    | obj l => exact Prod.Lex.right _ (by simp)
  · exact Prod.Lex.right _ (by simp)

/-- `VRMLWriter.convertchildren` as called: iterate over
`findchildren(mdata, linkname)`. -/
def convertchildren (mdata : BodyModel) (lm : PyDict LinkModel) (linkname : PyVal) :
    Except PyErr (List TreeNode) :=
  convertJoints mdata lm linkname (findchildren mdata linkname)

/-- The `VRMLWriter` instance state: the `_linkmap` dict set up at
construction and filled (never cleared) by `write`. -/
structure VRMLWriter where
  _linkmap : PyDict LinkModel := []

/-- `VRMLWriter.write` (vrml.py 26-54) up to the external template
rendering and file output: fill `_linkmap` from the model's links, take
the first root candidate (`findroot(mdata)[0]`, an `IndexError` when
there is none), look the root link up in `_linkmap`, build the synthetic
fixed joint named after the root, and convert the children. Returns the
nested structure handed to the template, together with the
writer state after the call. -/
def VRMLWriter.write (w : VRMLWriter) (mdata : BodyModel) :
    Except PyErr TreeNode × VRMLWriter :=
  let linkmap := mdata.links.foldl (fun d m => dictInsert d m.name m) w._linkmap
  let result :=
    match (findroot mdata).head? with
    | none => Except.error PyErr.indexError
    | some root =>
      match dictGet linkmap root with
      | none => Except.error (PyErr.keyError root)
      | some rootlink =>
        match convertchildren mdata linkmap (PyVal.str root) with
        | Except.error e => Except.error e
        | Except.ok children =>
          Except.ok (TreeNode.node { name := root, jointType := "fixed" } rootlink children)
  (result, { _linkmap := linkmap })

/-! ## A structural evaluator for the writer's recursion

`convertJoints` is defined by well-founded recursion and does not reduce
inside the kernel.  `convertJointsT` is a structurally recursive function
proven equal to it below: because the recursive call of `vrml.py` line 62
passes the `LinkModel` object, every recursive `findchildren` scan is
empty and each produced node has no children. -/

/-- Structural image of `convertJoints`: same lookups and same error
order, with the (provably empty) recursive result inlined as `[]`. -/
def convertJointsT (lm : PyDict LinkModel) : List JointModel → Except PyErr (List TreeNode)
  | [] => Except.ok []
  | cjoint :: rest =>
    match dictGet lm cjoint.child with
    | none => Except.error (PyErr.keyError cjoint.child)
    | some nlink =>
      match convertJointsT lm rest with
      | Except.error e => Except.error e
      | Except.ok restNodes => Except.ok (TreeNode.node cjoint nlink [] :: restNodes)

/-- Structural image of `convertchildren`. -/
def convertchildrenT (mdata : BodyModel) (lm : PyDict LinkModel) (linkname : PyVal) :
    Except PyErr (List TreeNode) :=
  convertJointsT lm (findchildren mdata linkname)

/-- The `_linkmap` contents after `write` has inserted every link of the
model over the writer's previous contents. -/
def writeLinkmap (w : PyDict LinkModel) (mdata : BodyModel) : PyDict LinkModel :=
  mdata.links.foldl (fun d m => dictInsert d m.name m) w

/-- Structural image of `VRMLWriter.write`. -/
def writeT (w : PyDict LinkModel) (mdata : BodyModel) :
    Except PyErr TreeNode × PyDict LinkModel :=
  (match (findroot mdata).head? with
   | none => Except.error PyErr.indexError
   | some root =>
     match dictGet (writeLinkmap w mdata) root with
     | none => Except.error (PyErr.keyError root)
     | some rootlink =>
       match convertchildrenT mdata (writeLinkmap w mdata) (PyVal.str root) with
       | Except.error e => Except.error e
       | Except.ok children =>
         Except.ok (TreeNode.node { name := root, jointType := "fixed" } rootlink children),
   writeLinkmap w mdata)

/-! ## `SDFReader` (sdf.py) -/

/-- Numeric value of a digit run. -/
def digitsToNat (cs : List Char) : Nat :=
  cs.foldl (fun acc c => acc * 10 + (c.toNat - '0'.toNat)) 0

/-- Modelled from the spec: Python's builtin `float(...)` on a plain
decimal literal — optional sign, digits, at most one point, at least one
digit (exponent, whitespace, underscore and inf/nan forms are not
exercised by any claim). `none` models the `ValueError` raised on
malformed input. -/
def pyFloat (s : String) : Option ℚ :=
  let cs := s.data
  let signed := match cs with
    | '-' :: rest => (true, rest)
    | '+' :: rest => (false, rest)
    | _ => (false, cs)
  let neg := signed.1
  let body := signed.2
  let ip := body.takeWhile Char.isDigit
  let rest := body.dropWhile Char.isDigit
  let build := fun (fpart : List Char) =>
    if ip.isEmpty && fpart.isEmpty then none
    else
      let mag : ℚ := mkRat (digitsToNat (ip ++ fpart) : Int) (10 ^ fpart.length)
      some (if neg then -mag else mag)
  match rest with
  | [] => build []
  | '.' :: frac => if frac.all Char.isDigit then build frac else none
  | _ => none

/-- `float(...)` with the `ValueError` made explicit. -/
def pyFloatQ (s : String) : Except PyErr ℚ :=
  match pyFloat s with
  | some q => Except.ok q
  | none => Except.error PyErr.valueError

/-- `float(...)` producing a stored Python number. -/
def pyFloatE (s : String) : Except PyErr PyScalar :=
  (pyFloatQ s).map PyScalar.num

/-- Helper for `pySplit`: accumulate the current field until the
separator. -/
def pySplitAux (sep : Char) : List Char → List Char → List (List Char)
  | [], acc => [acc.reverse]
  | c :: rest, acc =>
    if c == sep then acc.reverse :: pySplitAux sep rest []
    else pySplitAux sep rest (c :: acc)

/-- Python `s.split(sep)` for a one-character separator: split at every
occurrence, keeping empty fields (`''.split(' ') == ['']`). -/
def pySplit (s : String) (sep : Char) : List String :=
  (pySplitAux sep s.data []).map (fun cs => ⟨cs⟩)

/-- Modelled from the spec and vrml.py line 44: the joint-type enumerants
of the absent `model.py`, represented by their lowercase names (the
writer assigns the literal string "fixed" to the synthetic root joint's
`jointType`, so the enumerants are these strings). -/
def J_FIXED : String := "fixed"

/-- Joint-type enumerant for revolute joints (see `J_FIXED`). -/
def J_REVOLUTE : String := "revolute"

/-- Joint-type enumerant for prismatic joints (see `J_FIXED`). -/
def J_PRISMATIC : String := "prismatic"

/-- Joint-type enumerant for screw joints (see `J_FIXED`). -/
def J_SCREW : String := "screw"

/-- `SDFReader.readJointType` (sdf.py 94-103): map the four supported
type strings to the enumerants, raise
`Exception('unsupported joint type: %s' % d)` otherwise. -/
def readJointType (d : String) : Except PyErr String :=
  if d = "fixed" then Except.ok J_FIXED
  else if d = "revolute" then Except.ok J_REVOLUTE
  else if d = "prismatic" then Except.ok J_PRISMATIC
  else if d = "screw" then Except.ok J_SCREW
  else Except.error (PyErr.exceptionMsg ("unsupported joint type: " ++ d))

/-- `SDFReader.readPose` (sdf.py 89-92) applied to a joint: parse the six
space-separated floats, store the first three as the translation and the
quaternion built from the last three as the rotation (`IndexError` when
fewer than six components are given, `ValueError` on a malformed float). -/
def readPoseJ (jm : JointModel) (text : String) : Except PyErr JointModel := do
  let pose ← (pySplit text ' ').mapM pyFloatQ
  let p3 ← match pose.get? 3 with
    | some q => Except.ok q
    | none => Except.error PyErr.indexError
  let p4 ← match pose.get? 4 with
    | some q => Except.ok q
    | none => Except.error PyErr.indexError
  let p5 ← match pose.get? 5 with
    | some q => Except.ok q
    | none => Except.error PyErr.indexError
  Except.ok { jm with trans := some (pose.take 3), rot := some ⟨p3, p4, p5⟩ }

/-- The `dynamics` child of a joint's `axis` element: the text of its
`damping` and `friction` children. -/
structure XmlDynamics where
  damping : String
  friction : String

/-- The `limit` child of a joint's `axis` element: the text of its
`upper` and `lower` children. -/
structure XmlLimit where
  upper : String
  lower : String

/-- A joint's `axis` element: the text of its `xyz` child and the
optional `dynamics` and `limit` children. -/
structure XmlAxis where
  xyz : String
  dynamics : Option XmlDynamics := none
  limit : Option XmlLimit := none

/-- A `joint` subtree of the document: the `name` and `type` attributes
and the child elements the reader accesses.  Elements the source
dereferences unconditionally are required fields; `pose` and `axis` are
optional exactly as in the source. -/
structure XmlJoint where
  name : String
  type : String
  pose : Option String := none
  axis : Option XmlAxis := none
  parent : String
  child : String

/-- The joint-reading block of `SDFReader.read` (sdf.py 64-85): set name
and type, read the optional pose, read the optional axis — the `xyz`
components through `float(...)`, the `dynamics` and `limit` texts stored
verbatim (`dynamics.find('damping').text`, `[upper.text, lower.text]`) —
then the parent and child link-name references. -/
def readJoint (j : XmlJoint) : Except PyErr JointModel := do
  let jm : JointModel := { name := j.name }
  let jtype ← readJointType j.type
  let jm := { jm with jointType := jtype }
  let jm ← match j.pose with
    | some p => readPoseJ jm p
    | none => Except.ok jm
  let jm ← match j.axis with
    | none => Except.ok jm
    | some axis => do
      let vals ← (pySplit axis.xyz ' ').mapM pyFloatE
      let jm := { jm with axis := some vals }
      let jm := match axis.dynamics with
        | some dyn => { jm with damping := some (PyScalar.str dyn.damping),
                                friction := some (PyScalar.str dyn.friction) }
        | none => jm
      let jm := match axis.limit with
        | some lim => { jm with limit := some [PyScalar.str lim.upper, PyScalar.str lim.lower] }
        | none => jm
      Except.ok jm
  Except.ok { jm with parent := j.parent, child := j.child }

/-- The `inertia` element of an `inertial` block: the text of its six
scalar children. -/
structure XmlInertia where
  ixx : String
  ixy : String
  ixz : String
  iyy : String
  iyz : String
  izz : String

/-- The numpy 3x3 array of `readInertia`. -/
abbrev Matrix3 := Fin 3 → Fin 3 → ℚ

/-- A single numpy element assignment `m[i, j] = v`. -/
def mset (m : Matrix3) (i j : Fin 3) (v : ℚ) : Matrix3 :=
  fun a b => if a = i ∧ b = j then v else m a b

/-- `SDFReader.readInertia` (sdf.py 105-113): start from `numpy.zeros`,
place each parsed scalar at its named position, mirroring the three
off-diagonal pairs. -/
def readInertia (d : XmlInertia) : Except PyErr Matrix3 := do
  let inertia : Matrix3 := fun _ _ => 0
  let ixx ← pyFloatQ d.ixx
  let inertia := mset inertia 0 0 ixx
  let ixy ← pyFloatQ d.ixy
  let inertia := mset (mset inertia 0 1 ixy) 1 0 ixy
  let ixz ← pyFloatQ d.ixz
  let inertia := mset (mset inertia 0 2 ixz) 2 0 ixz
  let iyy ← pyFloatQ d.iyy
  let inertia := mset inertia 1 1 iyy
  let iyz ← pyFloatQ d.iyz
  let inertia := mset (mset inertia 1 2 iyz) 2 1 iyz
  let izz ← pyFloatQ d.izz
  let inertia := mset inertia 2 2 izz
  Except.ok inertia

/-- Python `s.rfind(c)`: the greatest index holding `c`, or `-1`. -/
def pyRfind (cs : List Char) (c : Char) : Int :=
  match cs.reverse.findIdx? (fun x => x == c) with
  | some k => (cs.length : Int) - 1 - (k : Int)
  | none => -1

/-- `os.path.splitext` (posixpath): split at the last `'.'` that lies
after the last `'/'`, provided some non-dot character of the basename
precedes it (leading dots of the basename never start an extension). -/
def pySplitext (p : String) : String × String :=
  let cs := p.data
  let sepIndex := pyRfind cs '/'
  let dotIndex := pyRfind cs '.'
  if sepIndex < dotIndex then
    let hasBase := (List.range cs.length).any (fun i =>
      decide (sepIndex < (i : Int)) && decide ((i : Int) < dotIndex) &&
        !(cs.getD i '.' == '.'))
    if hasBase then (⟨cs.take dotIndex.toNat⟩, ⟨cs.drop dotIndex.toNat⟩)
    else (p, "")
  else (p, "")

/-- Python `str.lower()` on the ASCII strings dispatched here. -/
def pyLower (s : String) : String :=
  ⟨s.data.map Char.toLower⟩

/-- The two registered mesh codec readers. -/
inductive MeshReaderKind where
  | collada
  | stl
deriving DecidableEq, Repr

/-- The mesh branch of `SDFReader.readShape` (sdf.py 125-132): lowercase
the extension of the referenced file, dispatch `.dae` to the Collada
reader and `.stl` to the STL reader, raise
`Exception('unsupported mesh format: %s' % fileext)` otherwise.  URI
resolution (`utils.resolveFile`, out of scope per spec section 1) has
already produced the filename. -/
def meshReaderFor (filename : String) : Except PyErr MeshReaderKind :=
  let fileext := pyLower (pySplitext filename).2
  if fileext = ".dae" then Except.ok MeshReaderKind.collada
  else if fileext = ".stl" then Except.ok MeshReaderKind.stl
  else Except.error (PyErr.exceptionMsg ("unsupported mesh format: " ++ fileext))

/-! ## Concrete inputs used by the claims -/

/-- A link with the given name. -/
def lk (n : String) : LinkModel := ⟨n⟩

/-- A reader-style revolute joint with the given name, parent and child. -/
def jnt (n p c : String) : JointModel :=
  { name := n, jointType := "revolute", parent := p, child := c }

/-- The 4-link tree of the spec's section 8: `root→B`, `B→C`, `B→D`. -/
def mFourLink : BodyModel :=
  { name := "four", links := [lk "root", lk "B", lk "C", lk "D"],
    joints := [jnt "j1" "root" "B", jnt "j2" "B" "C", jnt "j3" "B" "D"] }

/-- Links `{A,B,C}` with joints `A→B`, `B→C` (spec section 8). -/
def mLinksABC : BodyModel :=
  { name := "abc", links := [lk "A", lk "B", lk "C"],
    joints := [jnt "j1" "A" "B", jnt "j2" "B" "C"] }

/-- Two disjoint chains `A→B` and `X→Y` (spec section 8): two root
candidates. -/
def mTwoChains : BodyModel :=
  { name := "two", links := [lk "A", lk "B", lk "X", lk "Y"],
    joints := [jnt "j1" "A" "B", jnt "j2" "X" "Y"] }

/-- The two-joint cycle `A→B`, `B→A` (spec section 8): no root
candidate. -/
def mCycleAB : BodyModel :=
  { name := "cyc", links := [lk "A", lk "B"],
    joints := [jnt "j1" "A" "B", jnt "j2" "B" "A"] }

/-- A diamond: `root→B`, `root→C`, `B→D`, `C→D`; link `D` is reachable
from the root via two distinct paths. -/
def mDiamond : BodyModel :=
  { name := "dia", links := [lk "root", lk "B", lk "C", lk "D"],
    joints := [jnt "j1" "root" "B", jnt "j2" "root" "C", jnt "j3" "B" "D", jnt "j4" "C" "D"] }

/-- The `_linkmap` contents for `mDiamond`. -/
def lmDiamond : PyDict LinkModel :=
  [("root", lk "root"), ("B", lk "B"), ("C", lk "C"), ("D", lk "D")]

/-- A model whose joint references child link `B` although only `A`
exists. -/
def mDanglingChild : BodyModel :=
  { name := "dang", links := [lk "A"], joints := [jnt "j1" "A" "B"] }

/-- A model whose single joint references two names, `Q` and `R`, neither
of which is a link; `Q` becomes the root candidate. -/
def mGhostRoot : BodyModel :=
  { name := "ghost", links := [lk "A"], joints := [jnt "j1" "Q" "R"] }

/-- First model written by the shared writer instance: links `A`, `B`,
joint `A→B`. -/
def mFirst : BodyModel :=
  { name := "one", links := [lk "A", lk "B"], joints := [jnt "j1" "A" "B"] }

/-- Second model written by the same writer instance: link `A` only, with
the same joint `A→B` whose child `B` is dangling here. -/
def mSecond : BodyModel :=
  { name := "two", links := [lk "A"], joints := [jnt "j1" "A" "B"] }

/-- A joint subtree whose axis carries a dynamics pair and a limit pair
(`damping="0.5"`, `friction="0.1"`, `upper="1.0"`, `lower="-1.0"`). -/
def exDynJoint : XmlJoint :=
  { name := "j1", type := "revolute",
    axis := some { xyz := "1 0 0",
                   dynamics := some { damping := "0.5", friction := "0.1" },
                   limit := some { upper := "1.0", lower := "-1.0" } },
    parent := "A", child := "B" }

/-- The inertial block `ixx=1, ixy=2, ixz=3, iyy=4, iyz=5, izz=6` of the
spec's section 8. -/
def exInertia : XmlInertia :=
  { ixx := "1", ixy := "2", ixz := "3", iyy := "4", iyz := "5", izz := "6" }

/-- The Joint produced for `exDynJoint`: axis components parsed as
numbers, dynamics and limit texts stored verbatim as strings. -/
def dynJointParsed : JointModel :=
  { name := "j1", jointType := "revolute",
    axis := some [PyScalar.num 1, PyScalar.num 0, PyScalar.num 0],
    damping := some (PyScalar.str "0.5"), friction := some (PyScalar.str "0.1"),
    limit := some [PyScalar.str "1.0", PyScalar.str "-1.0"],
    parent := "A", child := "B" }

/-! ## General lemmas about the writer -/

/-- A `findchildren` call whose `linkname` is a `LinkModel` object finds
nothing: `j.parent == linkname` compares a string with an object. -/
theorem findchildren_obj (mdata : BodyModel) (l : LinkModel) :
    findchildren mdata (PyVal.obj l) = [] := by
  simp [findchildren, pyEq]

/-- The writer's recursion computes `convertJointsT`: the recursive call
on the `LinkModel` object finds no children, so it contributes `ok []`. -/
theorem convertJoints_eq_trunc (mdata : BodyModel) (lm : PyDict LinkModel)
    (ln : PyVal) (js : List JointModel) :
    convertJoints mdata lm ln js = convertJointsT lm js := by
  induction js generalizing ln with
  | nil => simp [convertJoints, convertJointsT]
  | cons j rest ih =>
    simp only [convertJoints, convertJointsT, findchildren_obj, ih]

theorem convertchildren_eq_trunc (mdata : BodyModel) (lm : PyDict LinkModel) (ln : PyVal) :
    convertchildren mdata lm ln = convertchildrenT mdata lm ln :=
  convertJoints_eq_trunc ..

theorem write_eq_writeT (w : PyDict LinkModel) (mdata : BodyModel) :
    VRMLWriter.write ⟨w⟩ mdata = ((writeT w mdata).1, ⟨(writeT w mdata).2⟩) := by
  unfold VRMLWriter.write writeT writeLinkmap
  simp only [convertchildren_eq_trunc]

theorem write_fst (w : PyDict LinkModel) (mdata : BodyModel) :
    (VRMLWriter.write ⟨w⟩ mdata).1 = (writeT w mdata).1 := by
  rw [write_eq_writeT]

theorem write_snd (w : PyDict LinkModel) (mdata : BodyModel) :
    (VRMLWriter.write ⟨w⟩ mdata).2 = ⟨(writeT w mdata).2⟩ := by
  rw [write_eq_writeT]

/-- Every node a successful `convertJointsT` returns has no children. -/
theorem convertJointsT_ok_children_nil (lm : PyDict LinkModel) (js : List JointModel)
    (ts : List TreeNode) (h : convertJointsT lm js = Except.ok ts) :
    ∀ t ∈ ts, t.childrenOf = [] := by
  induction js generalizing ts with
  | nil =>
    simp only [convertJointsT] at h
    injection h with h'
    subst h'
    intro t ht
    cases ht
  | cons j rest ih =>
    unfold convertJointsT at h
    cases hg : dictGet lm j.child with
    | none => rw [hg] at h; cases h
    | some nlink =>
      rw [hg] at h
      cases hr : convertJointsT lm rest with
      | error e => rw [hr] at h; cases h
      | ok restNodes =>
        rw [hr] at h
        injection h with h'
        subst h'
        intro t ht
        rcases List.mem_cons.mp ht with rfl | ht
        · rfl
        · exact ih restNodes hr t ht

/-- The only exception `convertJointsT` raises is the unchecked `KeyError`
from the `_linkmap` lookup. -/
theorem convertJointsT_error_keyError (lm : PyDict LinkModel) (js : List JointModel)
    (e : PyErr) (h : convertJointsT lm js = Except.error e) :
    ∃ k, e = PyErr.keyError k := by
  induction js with
  | nil => simp [convertJointsT] at h
  | cons j rest ih =>
    unfold convertJointsT at h
    cases hg : dictGet lm j.child with
    | none =>
      rw [hg] at h
      injection h with h'
      exact ⟨j.child, h'.symm⟩
    | some nlink =>
      rw [hg] at h
      cases hr : convertJointsT lm rest with
      | error e2 =>
        rw [hr] at h
        injection h with h'
        subst h'
        exact ih hr
      | ok restNodes => rw [hr] at h; cases h

/-! ## Key-set lemmas for the Python dicts -/

/-- Overwriting an existing key leaves the key sequence unchanged. -/
theorem keysOf_overwrite (d : PyDict α) (k : String) (v : α) :
    keysOf (d.map fun p => if p.1 == k then (k, v) else p) = keysOf d := by
  induction d with
  | nil => rfl
  | cons p d ih =>
    show ((if p.1 == k then (k, v) else p).1 ::
        keysOf (d.map fun p => if p.1 == k then (k, v) else p)) = p.1 :: keysOf d
    rw [ih]
    by_cases hpk : (p.1 == k) = true
    · have hk : p.1 = k := by simpa using hpk
      rw [if_pos hpk, hk]
    · rw [if_neg hpk]

theorem dictContains_iff (d : PyDict α) (k : String) :
    dictContains d k = true ↔ k ∈ keysOf d := by
  unfold dictContains keysOf
  rw [List.any_eq_true]
  constructor
  · rintro ⟨p, hp, hpk⟩
    have hk : p.1 = k := by simpa using hpk
    exact hk ▸ List.mem_map_of_mem Prod.fst hp
  · intro hk
    rw [List.mem_map] at hk
    obtain ⟨p, hp, rfl⟩ := hk
    exact ⟨p, hp, by simp⟩

theorem mem_keysOf_dictInsert (d : PyDict α) (k : String) (v : α) (s : String) :
    s ∈ keysOf (dictInsert d k v) ↔ s ∈ keysOf d ∨ s = k := by
  unfold dictInsert
  by_cases h : dictContains d k = true
  · rw [if_pos h, keysOf_overwrite]
    constructor
    · exact Or.inl
    · rintro (hs | rfl)
      · exact hs
      · exact (dictContains_iff d s).mp h
  · rw [if_neg h]
    unfold keysOf
    rw [List.map_append]
    simp

theorem mem_keysOf_dictDelete (d : PyDict α) (k : String) (s : String) :
    s ∈ keysOf (dictDelete d k) ↔ s ∈ keysOf d ∧ s ≠ k := by
  unfold dictDelete keysOf
  constructor
  · intro hs
    rw [List.mem_map] at hs
    obtain ⟨p, hp, rfl⟩ := hs
    rw [List.mem_filter] at hp
    obtain ⟨hpd, hpk⟩ := hp
    exact ⟨List.mem_map_of_mem _ hpd, by simpa using hpk⟩
  · rintro ⟨hs, hne⟩
    rw [List.mem_map] at hs
    obtain ⟨p, hp, rfl⟩ := hs
    exact List.mem_map_of_mem _ (List.mem_filter.mpr ⟨hp, by simpa using hne⟩)

/-- Keys present after folding `dictInsert` over a list of entries. -/
theorem mem_keysOf_insertFold {β : Type} (key : β → String) (val : β → α)
    (bs : List β) (d : PyDict α) (s : String) :
    s ∈ keysOf (bs.foldl (fun d b => dictInsert d (key b) (val b)) d) ↔
      s ∈ keysOf d ∨ s ∈ bs.map key := by
  induction bs generalizing d with
  | nil => simp
  | cons b bs ih =>
    rw [List.foldl_cons, ih, mem_keysOf_dictInsert]
    simp [or_assoc, eq_comm]

/-- Keys present after folding `dictDelete` over a list of entries. -/
theorem mem_keysOf_deleteFold {β : Type} (key : β → String)
    (bs : List β) (d : PyDict α) (s : String) :
    s ∈ keysOf (bs.foldl (fun d b => dictDelete d (key b)) d) ↔
      s ∈ keysOf d ∧ s ∉ bs.map key := by
  induction bs generalizing d with
  | nil => simp
  | cons b bs ih =>
    rw [List.foldl_cons, ih, mem_keysOf_dictDelete]
    simp only [List.map_cons, List.mem_cons, not_or]
    tauto

theorem dictGet_eq_none_iff (d : PyDict α) (k : String) :
    dictGet d k = none ↔ k ∉ keysOf d := by
  unfold dictGet keysOf
  rw [Option.map_eq_none', List.find?_eq_none]
  constructor
  · intro h hk
    rw [List.mem_map] at hk
    obtain ⟨p, hp, rfl⟩ := hk
    exact h p hp (by simp)
  · intro h p hp hpk
    have hk : p.1 = k := by simpa using hpk
    exact h (hk ▸ List.mem_map_of_mem Prod.fst hp)

/-- Membership characterisation of `findroot`: exactly the names that are
a parent of some joint and a child of none. -/
theorem mem_findroot_iff (mdata : BodyModel) (s : String) :
    s ∈ findroot mdata ↔
      s ∈ mdata.joints.map JointModel.parent ∧ s ∉ mdata.joints.map JointModel.child := by
  unfold findroot
  rw [mem_keysOf_deleteFold JointModel.child,
    mem_keysOf_insertFold JointModel.parent (fun _ => 1)]
  simp [keysOf]

/-- Key set of the writer's `_linkmap` after `write` has filled it. -/
theorem mem_keysOf_writeLinkmap (w : PyDict LinkModel) (mdata : BodyModel) (s : String) :
    s ∈ keysOf (writeLinkmap w mdata) ↔ s ∈ keysOf w ∨ s ∈ mdata.links.map LinkModel.name := by
  unfold writeLinkmap
  exact mem_keysOf_insertFold LinkModel.name (fun m => m) mdata.links w s

/-! ## The claims -/

/-- C1: on the 4-link tree `root→B`, `B→C`, `B→D` the writer produces the
root node with the single child `B`, but `B` has NO children — not `C`
and `D` as the claim states — because the recursive call of `vrml.py`
line 62 passes the `LinkModel` object `nlink` (not its name) to
`findchildren`, whose string comparison `j.parent == linkname` then
matches no joint. -/
theorem write_fourLink_truncated :
    (VRMLWriter.write ⟨[]⟩ mFourLink).1 =
      Except.ok (TreeNode.node { name := "root", jointType := "fixed" } (lk "root")
        [TreeNode.node (jnt "j1" "root" "B") (lk "B") []]) := by
  rw [write_fst]; rfl

/-- C4: `findroot` returns exactly the link names that occur as some
joint's `parent` and as no joint's `child`; on links `{A,B,C}` with
joints `A→B`, `B→C` it returns exactly `["A"]`. -/
theorem findroot_eq_parents_minus_children :
    (∀ (mdata : BodyModel) (s : String),
        s ∈ findroot mdata ↔
          s ∈ mdata.joints.map JointModel.parent ∧ s ∉ mdata.joints.map JointModel.child)
    ∧ findroot mLinksABC = ["A"] :=
  ⟨mem_findroot_iff, by rfl⟩

/-- C9: write invocations through a shared `VRMLWriter` are NOT
independent: after writing `mFirst` (links `A`, `B`), writing `mSecond`
(link `A` only, joint `A→B`) succeeds using the stale link `B` kept in
`_linkmap` from the first call, while a fresh writer fails with
`KeyError "B"` on the same model — `write` never clears `_linkmap`. -/
theorem write_reuse_changes_outcome :
    (VRMLWriter.write ((VRMLWriter.write ⟨[]⟩ mFirst).2) mSecond).1 =
      Except.ok (TreeNode.node { name := "A", jointType := "fixed" } (lk "A")
        [TreeNode.node (jnt "j1" "A" "B") (lk "B") []])
    ∧ (VRMLWriter.write ⟨[]⟩ mSecond).1 = Except.error (PyErr.keyError "B") := by
  constructor
  · rw [write_snd, write_fst]; rfl
  · rw [write_fst]; rfl

/-- C2 counterexample: on the two disjoint chains `A→B`, `X→Y` there are
two root candidates (`findroot` returns `["A", "X"]`), yet `write` does
not fail with any `AmbiguousRoot` error — it silently picks the first
candidate `A` and succeeds. -/
theorem write_twoChains_picks_first :
    (VRMLWriter.write ⟨[]⟩ mTwoChains).1 =
      Except.ok (TreeNode.node { name := "A", jointType := "fixed" } (lk "A")
        [TreeNode.node (jnt "j1" "A" "B") (lk "B") []]) := by
  rw [write_fst]; rfl

/-- C2 (amended): `write` takes the head of the `findroot` candidate list:
with no candidate it fails with the untyped `IndexError` of
`findroot(mdata)[0]` (not `NoRootFound`), and with one or more candidates
the first one becomes the root of any successfully returned tree, carrying
the synthetic joint named after it with `jointType` "fixed" and the parent
and child references left unset (no `AmbiguousRoot` check exists). -/
theorem write_root_policy (w : PyDict LinkModel) (mdata : BodyModel) :
    (findroot mdata = [] → (VRMLWriter.write ⟨w⟩ mdata).1 = Except.error PyErr.indexError)
    ∧ (∀ (r : String) (rest : List String) (t : TreeNode),
        findroot mdata = r :: rest →
        (VRMLWriter.write ⟨w⟩ mdata).1 = Except.ok t →
        t.jointOf = { name := r, jointType := "fixed" }) := by
  constructor
  · intro h0
    rw [write_fst]
    unfold writeT
    rw [h0]
    rfl
  · intro r rest t hfr h
    rw [write_fst] at h
    unfold writeT at h
    rw [hfr] at h
    simp only [List.head?_cons] at h
    cases hg : dictGet (writeLinkmap w mdata) r with
    | none => rw [hg] at h; cases h
    | some rootlink =>
      rw [hg] at h
      cases hc : convertchildrenT mdata (writeLinkmap w mdata) (PyVal.str r) with
      | error e => rw [hc] at h; cases h
      | ok children =>
        rw [hc] at h
        injection h with h'
        rw [← h']
        rfl

/-- C2 witness: the amended policy applied to the cyclic model (zero
candidates: `IndexError`) and to the two-chain model (first candidate `A`
becomes the root with the synthetic fixed joint). -/
theorem write_root_policy_witness :
    (VRMLWriter.write ⟨[]⟩ mCycleAB).1 = Except.error PyErr.indexError
    ∧ TreeNode.jointOf (TreeNode.node { name := "A", jointType := "fixed" } (lk "A")
        [TreeNode.node (jnt "j1" "A" "B") (lk "B") []]) = { name := "A", jointType := "fixed" } :=
  ⟨(write_root_policy [] mCycleAB).1 (by rfl),
   (write_root_policy [] mTwoChains).2 "A" ["X"]
     (TreeNode.node { name := "A", jointType := "fixed" } (lk "A")
       [TreeNode.node (jnt "j1" "A" "B") (lk "B") []])
     (by rfl) (by rw [write_fst]; rfl)⟩

/-- C3 counterexample: on the diamond `root→B`, `root→C`, `B→D`, `C→D` the
link `D` is reachable from the root via two distinct paths, yet the
conversion does not fail with any `NotATree` error: it succeeds,
returning a tree in which `B` and `C` have no children at all
(`D` is silently dropped by the broken recursion). -/
theorem write_diamond_no_notATree :
    (VRMLWriter.write ⟨[]⟩ mDiamond).1 =
      Except.ok (TreeNode.node { name := "root", jointType := "fixed" } (lk "root")
        [TreeNode.node (jnt "j1" "root" "B") (lk "B") [],
         TreeNode.node (jnt "j2" "root" "C") (lk "C") []]) := by
  rw [write_fst]; rfl

/-- C3 (amended): the conversion performs no revisit detection and never
raises `NotATree`; it terminates on every input — not by design but
because the recursive call of `vrml.py` line 62 passes the `LinkModel`
object, which matches no joint's `parent`, so every node of a
successfully returned child list has an empty `children` sequence and no
link is ever visited twice. -/
theorem convertchildren_nodes_childless (mdata : BodyModel) (lm : PyDict LinkModel)
    (ln : PyVal) (ts : List TreeNode) (h : convertchildren mdata lm ln = Except.ok ts) :
    ∀ t ∈ ts, t.childrenOf = [] := by
  rw [convertchildren_eq_trunc] at h
  exact convertJointsT_ok_children_nil _ _ _ h

/-- C3 witness: on the diamond model, the node built for `B` (reachable
together with `C`, both leading to `D`) has no children. -/
theorem convertchildren_nodes_childless_witness :
    TreeNode.childrenOf (TreeNode.node (jnt "j1" "root" "B") (lk "B") []) = [] :=
  convertchildren_nodes_childless mDiamond lmDiamond (PyVal.str "root")
    [TreeNode.node (jnt "j1" "root" "B") (lk "B") [],
     TreeNode.node (jnt "j2" "root" "C") (lk "C") []]
    (by rw [convertchildren_eq_trunc]; rfl)
    (TreeNode.node (jnt "j1" "root" "B") (lk "B") [])
    (List.mem_cons_self _ _)

/-- C5 counterexample: on the model with link `A` only and joint `A→B`,
the dangling child reference `B` makes `write` fail with the unchecked
dict lookup failure `KeyError "B"`, not with a typed `DanglingReference`
error. -/
theorem write_dangling_child_keyError :
    (VRMLWriter.write ⟨[]⟩ mDanglingChild).1 = Except.error (PyErr.keyError "B") := by
  rw [write_fst]; rfl

/-- C5 (amended): when a link-name lookup of the tree-style write fails to
resolve — shown here for the root candidate on a fresh writer; the
counterexample shows the same for a traversed joint's child — the write
fails with the unchecked dict lookup failure `KeyError` carrying that
name; no `DanglingReference` error is ever produced (dangling joints the
traversal never reaches are not reported at all). -/
theorem write_dangling_unchecked_keyError :
    (∀ (mdata : BodyModel) (r : String),
        (findroot mdata).head? = some r →
        r ∉ mdata.links.map LinkModel.name →
        (VRMLWriter.write ⟨[]⟩ mdata).1 = Except.error (PyErr.keyError r))
    ∧ (∀ (w : PyDict LinkModel) (mdata : BodyModel) (e : PyErr),
        (VRMLWriter.write ⟨w⟩ mdata).1 = Except.error e → e.isDanglingRef = false) := by
  constructor
  · intro mdata r hr hnot
    rw [write_fst]
    unfold writeT
    have hg : dictGet (writeLinkmap [] mdata) r = none := by
      rw [dictGet_eq_none_iff]
      intro hk
      rcases (mem_keysOf_writeLinkmap [] mdata r).mp hk with h | h
      · simp [keysOf] at h
      · exact hnot h
    cases hfl : findroot mdata with
    | nil => rw [hfl] at hr; cases hr
    | cons a rest =>
      rw [hfl, List.head?_cons] at hr
      injection hr with hr'
      subst hr'
      simp only [List.head?_cons, hg]
  · intro w mdata e h
    rw [write_fst] at h
    unfold writeT at h
    cases hfl : findroot mdata with
    | nil =>
      rw [hfl] at h
      simp only [List.head?_nil] at h
      injection h with h'
      rw [← h']
      rfl
    | cons r rest =>
      rw [hfl] at h
      simp only [List.head?_cons] at h
      cases hg : dictGet (writeLinkmap w mdata) r with
      | none =>
        rw [hg] at h
        injection h with h'
        rw [← h']
        rfl
      | some rootlink =>
        rw [hg] at h
        cases hc : convertchildrenT mdata (writeLinkmap w mdata) (PyVal.str r) with
        | error e2 =>
          rw [hc] at h
          injection h with h'
          unfold convertchildrenT at hc
          obtain ⟨k, rfl⟩ := convertJointsT_error_keyError _ _ _ hc
          rw [← h']
          rfl
        | ok children => rw [hc] at h; cases h

/-- C5 witness: the model whose joint names the nonexistent parent `Q`
(the root candidate) makes the fresh write fail with `KeyError "Q"`,
which is not a `DanglingReference`. -/
theorem write_dangling_unchecked_keyError_witness :
    (VRMLWriter.write ⟨[]⟩ mGhostRoot).1 = Except.error (PyErr.keyError "Q")
    ∧ PyErr.isDanglingRef (PyErr.keyError "Q") = false := by
  have h1 : (VRMLWriter.write ⟨[]⟩ mGhostRoot).1 = Except.error (PyErr.keyError "Q") :=
    write_dangling_unchecked_keyError.1 mGhostRoot "Q" (by rfl) (by decide)
  exact ⟨h1, write_dangling_unchecked_keyError.2 [] mGhostRoot _ h1⟩

/-- C6: the joint-type parser accepts exactly the four supported strings,
returning the corresponding enumerant, and rejects every other string
with the "unsupported joint type" error carrying the offending token; in
particular "teleport" fails with that error carrying "teleport". -/
theorem readJointType_exact :
    readJointType "fixed" = Except.ok J_FIXED
    ∧ readJointType "revolute" = Except.ok J_REVOLUTE
    ∧ readJointType "prismatic" = Except.ok J_PRISMATIC
    ∧ readJointType "screw" = Except.ok J_SCREW
    ∧ (∀ s : String, s ≠ "fixed" → s ≠ "revolute" → s ≠ "prismatic" → s ≠ "screw" →
        readJointType s = Except.error (PyErr.exceptionMsg ("unsupported joint type: " ++ s)))
    ∧ readJointType "teleport" =
        Except.error (PyErr.exceptionMsg "unsupported joint type: teleport") := by
  refine ⟨rfl, rfl, rfl, rfl, ?_, rfl⟩
  intro s h1 h2 h3 h4
  unfold readJointType
  rw [if_neg h1, if_neg h2, if_neg h3, if_neg h4]

/-- C6 witness: the rejection case applied to the unsupported token
"cone". -/
theorem readJointType_exact_witness :
    readJointType "cone" = Except.error (PyErr.exceptionMsg "unsupported joint type: cone") :=
  readJointType_exact.2.2.2.2.1 "cone" (by decide) (by decide) (by decide) (by decide)

/-- C7: whatever six scalars an inertia block carries, the tensor
`readInertia` builds is symmetric, and the block
`ixx=1, ixy=2, ixz=3, iyy=4, iyz=5, izz=6` yields
`tensor[0][1] = tensor[1][0] = 2` and `tensor[2][2] = 6`. -/
theorem readInertia_symmetric :
    (∀ (x : XmlInertia) (i j : Fin 3),
        (readInertia x).map (fun M => M i j) = (readInertia x).map (fun M => M j i))
    ∧ (readInertia exInertia).map (fun M => (M 0 1, M 1 0, M 2 2)) =
        Except.ok ((2 : ℚ), (2 : ℚ), (6 : ℚ)) := by
  constructor
  · intro x i j
    unfold readInertia
    cases pyFloatQ x.ixx with
    | error e => rfl
    | ok q1 =>
      cases pyFloatQ x.ixy with
      | error e => rfl
      | ok q2 =>
        cases pyFloatQ x.ixz with
        | error e => rfl
        | ok q3 =>
          cases pyFloatQ x.iyy with
          | error e => rfl
          | ok q4 =>
            cases pyFloatQ x.iyz with
            | error e => rfl
            | ok q5 =>
              cases pyFloatQ x.izz with
              | error e => rfl
              | ok q6 => fin_cases i <;> fin_cases j <;> rfl
  · rfl

/-- C8: the joint reader parses the axis `xyz` components through
`float(...)` (stored as numbers) but stores `damping`, `friction` and the
`(upper, lower)` limit pair as the raw XML text strings — not as floats
as the claim states: `dynamics.find('damping').text` and
`[limit.find('upper').text, limit.find('lower').text]` are assigned
without conversion (sdf.py 77-81). -/
theorem readJoint_stores_dynamics_as_strings :
    readJoint exDynJoint = Except.ok dynJointParsed := by
  rfl

/-- C10: the mesh dispatch lowercases the referenced file's extension
before comparing: any capitalisation of `.dae` selects the Collada
reader, any capitalisation of `.stl` the STL reader, and any other
extension raises the "unsupported mesh format" error carrying the
lowercased extension. -/
theorem meshReaderFor_lowercase_dispatch :
    (∀ f : String, pyLower (pySplitext f).2 = ".dae" →
        meshReaderFor f = Except.ok MeshReaderKind.collada)
    ∧ (∀ f : String, pyLower (pySplitext f).2 = ".stl" →
        meshReaderFor f = Except.ok MeshReaderKind.stl)
    ∧ (∀ f : String, pyLower (pySplitext f).2 ≠ ".dae" → pyLower (pySplitext f).2 ≠ ".stl" →
        meshReaderFor f = Except.error
          (PyErr.exceptionMsg ("unsupported mesh format: " ++ pyLower (pySplitext f).2)))
    ∧ meshReaderFor "mesh.DaE" = Except.ok MeshReaderKind.collada
    ∧ meshReaderFor "parts/wheel.STL" = Except.ok MeshReaderKind.stl
    ∧ meshReaderFor "box.Obj" =
        Except.error (PyErr.exceptionMsg "unsupported mesh format: .obj") := by
  refine ⟨?_, ?_, ?_, by rfl, by rfl, by rfl⟩
  · intro f h
    simp only [meshReaderFor]
    rw [h]
    rfl
  · intro f h
    simp only [meshReaderFor]
    rw [h]
    rfl
  · intro f h1 h2
    simp only [meshReaderFor]
    rw [if_neg h1, if_neg h2]

/-- C10 witness: the `.dae` dispatch case applied to an uppercase
extension. -/
theorem meshReaderFor_lowercase_dispatch_witness :
    meshReaderFor "model/base.DAE" = Except.ok MeshReaderKind.collada :=
  meshReaderFor_lowercase_dispatch.1 "model/base.DAE" (by rfl)
